import Mathlib

/-!
Shallow embedding of `src/run_hri.py`: the HRI engine (`build_hri`), the
level classifier (`risk_level_from_T_D`), the event builder
(`build_final_event` and the no-trigger payload), and the `main` pipeline
(empty-series guard, trigger filter, first-trigger final event).

Temperatures are modelled as `Option ℚ`: `none` stands for a non-finite
(NaN/missing) float, `some x` for a finite value.  The HRI value is a real
number (`Real.log` is the natural logarithm `np.log`); a non-finite `T_t`
propagates to a `none` HRI, matching NaN arithmetic in numpy.  Dates are
natural numbers (days since an epoch); only their ordering matters.
-/

namespace RunHri

/-- Module constant `T_BASE = 28.0` (exact in floats, kept rational). -/
def T_BASE : ℚ := 28

/-- Module constant `ALPHA = 1.0`. -/
def ALPHA : ℝ := 1

/-- Module constant `BETA = 0.8`. -/
def BETA : ℝ := 0.8

/-- Module constant `GAMMA = 0.5`. -/
def GAMMA : ℝ := 0.5

/-- Module constant `HRI_THRESHOLD = 3.0`. -/
def HRI_THRESHOLD : ℝ := 3

/-- Module constant `SEVERE_TEMP = 30.0` (exact in floats, kept rational). -/
def SEVERE_TEMP : ℚ := 30

/-- Module constant `REGION_ID`. -/
def REGION_ID : String := "JEJU_OFFSHORE"

/-- One input row of `df_daily`: a date and the day's ROI-mean SST
(`none` = non-finite). -/
structure Obs where
  date : ℕ
  T_t : Option ℚ
deriving DecidableEq, Repr

/-- The five risk levels returned by `risk_level_from_T_D`. -/
inductive Level where
  | NORMAL
  | WATCH
  | WARNING
  | SEVERE
  | UNKNOWN
deriving DecidableEq, Repr

/-- `risk_level_from_T_D(T_t, D_con)`: the decision ladder from the source,
evaluated top to bottom (`np.isfinite` guard first, then the three
threshold tests with early returns). -/
def risk_level_from_T_D (T_t : Option ℚ) (D_con : ℕ) : Level :=
  match T_t with
  | none => Level.UNKNOWN
  | some t =>
    if t < T_BASE then Level.NORMAL
    else if D_con < 3 then Level.WATCH
    else if t < SEVERE_TEMP then Level.WARNING
    else Level.SEVERE

/-- The streak-step condition from the `build_hri` loop:
`np.isfinite(t) and t >= T_BASE`. -/
def qualifies (t : Option ℚ) : Bool :=
  match t with
  | none => false
  | some x => decide (T_BASE ≤ x)

/-- One step of `df["T_t"].diff().abs().fillna(0.0)`: the absolute
difference when both the previous and current value are finite, otherwise
the NaN produced by `diff` is replaced by `0.0`. -/
def vstep (prev cur : Option ℚ) : ℚ :=
  match prev, cur with
  | some p, some c => |c - p|
  | _, _ => 0

/-- The HRI column formula
`ALPHA * max(0, T_t - T_BASE) + BETA * log(D_con + 1) + GAMMA * V_var`;
a non-finite `T_t` makes the whole expression NaN, modelled as `none`. -/
noncomputable def hriOf (t : Option ℚ) (d : ℕ) (v : ℚ) : Option ℝ :=
  match t with
  | none => none
  | some x =>
      some (ALPHA * max 0 ((x : ℝ) - (T_BASE : ℝ))
        + BETA * Real.log ((d : ℝ) + 1)
        + GAMMA * (v : ℝ))

/-- One row of the `df_hri` dataframe produced by `build_hri`. -/
structure DailyMetric where
  date : ℕ
  T_t : Option ℚ
  D_con : ℕ
  V_var : ℚ
  HRI : Option ℝ
  level : Level

/-- The `trigger` column: `df["HRI"] >= HRI_THRESHOLD`; a NaN comparison is
false in numpy, so a `none` HRI never triggers. -/
def trigger (m : DailyMetric) : Prop :=
  match m.HRI with
  | none => False
  | some h => HRI_THRESHOLD ≤ h

/-- Build one output row from an observation and the carried state
(streak so far, previous day's `T_t`). -/
noncomputable def mkRow (o : Obs) (streak : ℕ) (prevT : Option ℚ) : DailyMetric :=
  let d := if qualifies o.T_t then streak + 1 else 0
  let v := vstep prevT o.T_t
  { date := o.date
    T_t := o.T_t
    D_con := d
    V_var := v
    HRI := hriOf o.T_t d v
    level := risk_level_from_T_D o.T_t d }

/-- The `build_hri` pass over the sorted rows, threading
`(streak, previous T_t)` exactly as the source's loop and `diff` do. -/
noncomputable def hriRows : List Obs → ℕ → Option ℚ → List DailyMetric
  | [], _, _ => []
  | o :: rest, streak, prevT =>
      mkRow o streak prevT ::
        hriRows rest (if qualifies o.T_t then streak + 1 else 0) o.T_t

/-- The date order used by `sort_values("date")`. -/
def dateLe (a b : Obs) : Prop := a.date ≤ b.date

instance : DecidableRel dateLe := fun a b => Nat.decLe a.date b.date

instance : IsTotal Obs dateLe := ⟨fun a b => Nat.le_total a.date b.date⟩

instance : IsTrans Obs dateLe := ⟨fun _ _ _ => Nat.le_trans⟩

/-- `df_daily.copy().sort_values("date").reset_index(drop=True)`:
a deterministic sort of the rows by ascending date. -/
def sortObs (l : List Obs) : List Obs := List.insertionSort dateLe l

/-- `build_hri(df_daily)`: sort by date, then compute the
`D_con`, `V_var`, `HRI`, `trigger`, `level` columns. -/
noncomputable def build_hri (df_daily : List Obs) : List DailyMetric :=
  hriRows (sortObs df_daily) 0 none

/-- The `metrics` block of the final JSON payload. -/
structure MetricsBlock where
  T_t : Option ℚ
  D_con : ℕ
  V_var : ℚ
  HRI : Option ℝ

/-- The `threshold` block of the final JSON payload. -/
structure ThresholdBlock where
  HRI : ℝ
  T_base : ℚ
  severe_temp : ℚ
  warning_duration_days : ℕ

/-- The `weights` block of the final JSON payload. -/
structure WeightsBlock where
  alpha : ℝ
  beta : ℝ
  gamma : ℝ

/-- The `decision` block of the final JSON payload. -/
structure Decision where
  triggered : Bool
  level : Level

/-- The final JSON payload.  Keys that the no-trigger branch of `main`
omits entirely (`metrics`, `threshold`, `weights`, `source`) are `Option`s
whose `none` means the key is absent; `date` is always present but holds
`null` (`none`) in the no-trigger payload. -/
structure FinalEvent where
  event_type : String
  region : String
  date : Option ℕ
  metrics : Option MetricsBlock
  threshold : Option ThresholdBlock
  weights : Option WeightsBlock
  source : Option String
  decision : Decision
  message : String

/-- The set of JSON keys actually present in a payload, in source order. -/
def FinalEvent.keys (e : FinalEvent) : List String :=
  ["event_type", "region", "date"]
    ++ (if e.metrics.isSome then ["metrics"] else [])
    ++ (if e.threshold.isSome then ["threshold"] else [])
    ++ (if e.weights.isSome then ["weights"] else [])
    ++ (if e.source.isSome then ["source"] else [])
    ++ ["decision", "message"]

/-- `build_final_event(row)`: the triggering payload, a snapshot of the
row's metrics plus the configuration constants. -/
noncomputable def build_final_event (row : DailyMetric) : FinalEvent :=
  { event_type := "HRI_TRIGGER"
    region := REGION_ID
    date := some row.date
    metrics := some ⟨row.T_t, row.D_con, row.V_var, row.HRI⟩
    threshold := some ⟨HRI_THRESHOLD, T_BASE, SEVERE_TEMP, 3⟩
    weights := some ⟨ALPHA, BETA, GAMMA⟩
    source := some "NOAA OISST v2.1 AVHRR daily (0.25deg)"
    decision := ⟨true, row.level⟩
    message := "[" ++ REGION_ID ++ "] HRI trigger (HRI>=threshold)." }

/-- The "empty" final payload written by `main` when no day triggers. -/
def noTriggerEvent : FinalEvent :=
  { event_type := "HRI_TRIGGER"
    region := REGION_ID
    date := none
    metrics := none
    threshold := none
    weights := none
    source := none
    decision := ⟨false, Level.NORMAL⟩
    message := "[" ++ REGION_ID ++ "] No trigger in range. Adjust threshold if needed." }

/-- `df_hri[df_hri["trigger"]]`: the rows whose trigger flag is set, in
table order. -/
noncomputable def triggeredRows (t : List DailyMetric) : List DailyMetric :=
  t.filter (fun m => @decide (trigger m) (Classical.propDecidable _))

/-- The three artifacts `main` writes: the tabular export, the trigger-list
export, and the single final event. -/
structure Outputs where
  table : List DailyMetric
  triggerList : List DailyMetric
  finalEvent : FinalEvent

/-- The `main` pipeline downstream of data acquisition: fail on an empty
row list before computing anything, otherwise build the table, filter the
triggered rows, and build the final event from the first triggered row
(`iloc[0]`) or the no-trigger payload. -/
noncomputable def runMain (rows : List Obs) : Except String Outputs :=
  if rows = [] then
    Except.error "No processed days. Check network/URL/permissions."
  else
    let df_hri := build_hri rows
    let triggered := triggeredRows df_hri
    let finalEvent :=
      match triggered with
      | [] => noTriggerEvent
      | r :: _ => build_final_event r
    Except.ok ⟨df_hri, triggered, finalEvent⟩

/-! ### Basic row lemmas -/

theorem mkRow_date (o : Obs) (s : ℕ) (p : Option ℚ) : (mkRow o s p).date = o.date := rfl

theorem mkRow_T_t (o : Obs) (s : ℕ) (p : Option ℚ) : (mkRow o s p).T_t = o.T_t := rfl

theorem mkRow_D_con (o : Obs) (s : ℕ) (p : Option ℚ) :
    (mkRow o s p).D_con = if qualifies o.T_t then s + 1 else 0 := rfl

theorem mkRow_V_var (o : Obs) (s : ℕ) (p : Option ℚ) :
    (mkRow o s p).V_var = vstep p o.T_t := rfl

theorem mkRow_HRI (o : Obs) (s : ℕ) (p : Option ℚ) :
    (mkRow o s p).HRI = hriOf o.T_t (mkRow o s p).D_con (mkRow o s p).V_var := rfl

theorem mkRow_level (o : Obs) (s : ℕ) (p : Option ℚ) :
    (mkRow o s p).level = risk_level_from_T_D o.T_t (mkRow o s p).D_con := rfl

theorem hriRows_length : ∀ (l : List Obs) (s : ℕ) (p : Option ℚ),
    (hriRows l s p).length = l.length
  | [], _, _ => rfl
  | _ :: rest, s, _ => by
      simp [hriRows, hriRows_length rest]

theorem hriRows_map_date : ∀ (l : List Obs) (s : ℕ) (p : Option ℚ),
    (hriRows l s p).map DailyMetric.date = l.map Obs.date
  | [], _, _ => rfl
  | o :: rest, s, p => by
      simp [hriRows, mkRow_date, hriRows_map_date rest]

theorem mem_hriRows : ∀ {l : List Obs} {s : ℕ} {p : Option ℚ} {m : DailyMetric},
    m ∈ hriRows l s p → ∃ o s2 p2, m = mkRow o s2 p2 := by
  intro l
  induction l with
  | nil => intro s p m h; cases h
  | cons o rest ih =>
      intro s p m h
      rcases List.mem_cons.mp h with h | h
      · exact ⟨o, s, p, h⟩
      · exact ih h

theorem hriRows_row_HRI {l : List Obs} {s : ℕ} {p : Option ℚ} {m : DailyMetric}
    (h : m ∈ hriRows l s p) : m.HRI = hriOf m.T_t m.D_con m.V_var := by
  obtain ⟨o, s2, p2, rfl⟩ := mem_hriRows h
  rfl

theorem hriRows_row_level {l : List Obs} {s : ℕ} {p : Option ℚ} {m : DailyMetric}
    (h : m ∈ hriRows l s p) : m.level = risk_level_from_T_D m.T_t m.D_con := by
  obtain ⟨o, s2, p2, rfl⟩ := mem_hriRows h
  rfl

theorem hriRows_row_Vvar_nonneg {l : List Obs} {s : ℕ} {p : Option ℚ} {m : DailyMetric}
    (h : m ∈ hriRows l s p) : 0 ≤ m.V_var := by
  obtain ⟨o, s2, p2, rfl⟩ := mem_hriRows h
  rw [mkRow_V_var]
  cases p2 <;> cases ht : o.T_t <;> simp [vstep, abs_nonneg]

theorem hriRows_get_zero (o : Obs) (rest : List Obs) (s : ℕ) (p : Option ℚ)
    (h : 0 < (hriRows (o :: rest) s p).length) :
    (hriRows (o :: rest) s p).get ⟨0, h⟩ = mkRow o s p := rfl

theorem hriRows_get_succ : ∀ (l : List Obs) (s : ℕ) (p : Option ℚ) (i : ℕ)
    (hj : i + 1 < (hriRows l s p).length) (hi : i < (hriRows l s p).length)
    (hl : i + 1 < l.length),
    (hriRows l s p).get ⟨i + 1, hj⟩ =
      mkRow (l.get ⟨i + 1, hl⟩)
        ((hriRows l s p).get ⟨i, hi⟩).D_con
        ((hriRows l s p).get ⟨i, hi⟩).T_t := by
  intro l
  induction l with
  | nil => intro s p i hj hi hl; exact absurd hl (by simp)
  | cons o rest ih =>
      intro s p i hj hi hl
      match i with
      | 0 =>
          match rest, hl with
          | o2 :: rest2, _ => rfl
      | k + 1 =>
          have hj2 : k + 1 < (hriRows rest (if qualifies o.T_t then s + 1 else 0) o.T_t).length := by
            have := hj; simp [hriRows] at this; omega
          have hi2 : k < (hriRows rest (if qualifies o.T_t then s + 1 else 0) o.T_t).length := by
            omega
          have hl2 : k + 1 < rest.length := by
            have := hl; simp at this; omega
          exact ih (if qualifies o.T_t then s + 1 else 0) o.T_t k hj2 hi2 hl2

/-! ### Sorting, table-level and pipeline-level lemmas -/

theorem sortObs_perm (l : List Obs) : (sortObs l).Perm l :=
  List.perm_insertionSort dateLe l

theorem sortObs_sorted (l : List Obs) : (sortObs l).Sorted dateLe :=
  List.sorted_insertionSort dateLe l

theorem sortObs_length (l : List Obs) : (sortObs l).length = l.length :=
  (sortObs_perm l).length_eq

theorem sortObs_of_sorted {l : List Obs} (h : l.Sorted dateLe) : sortObs l = l :=
  List.Sorted.insertionSort_eq h

theorem build_hri_length (l : List Obs) : (build_hri l).length = l.length := by
  rw [build_hri, hriRows_length, sortObs_length]

theorem build_hri_map_date (l : List Obs) :
    (build_hri l).map DailyMetric.date = (sortObs l).map Obs.date := by
  rw [build_hri, hriRows_map_date]

theorem build_hri_dates_sorted (l : List Obs) :
    ((build_hri l).map DailyMetric.date).Sorted (· ≤ ·) := by
  rw [build_hri_map_date]
  have h := sortObs_sorted l
  rw [List.Sorted, List.pairwise_map]
  exact h

theorem build_hri_pairwise_dateLe (l : List Obs) :
    (build_hri l).Pairwise (fun a b => a.date ≤ b.date) := by
  have h := build_hri_dates_sorted l
  rw [List.Sorted, List.pairwise_map] at h
  exact h

theorem trigger_iff {m : DailyMetric} :
    trigger m ↔ ∃ h, m.HRI = some h ∧ HRI_THRESHOLD ≤ h := by
  rw [trigger]
  cases hh : m.HRI <;> simp

theorem not_trigger_of_HRI_none {m : DailyMetric} (h : m.HRI = none) : ¬ trigger m := by
  rw [trigger, h]
  exact fun h => h

theorem mem_triggeredRows {t : List DailyMetric} {m : DailyMetric} :
    m ∈ triggeredRows t ↔ m ∈ t ∧ trigger m := by
  rw [triggeredRows, List.mem_filter]
  simp only [decide_eq_true_eq]

theorem triggeredRows_sublist (t : List DailyMetric) : List.Sublist (triggeredRows t) t :=
  List.filter_sublist t

theorem runMain_eq_of_ne_nil {l : List Obs} (h : l ≠ []) :
    runMain l = Except.ok
      ⟨build_hri l, triggeredRows (build_hri l),
        match triggeredRows (build_hri l) with
        | [] => noTriggerEvent
        | r :: _ => build_final_event r⟩ := by
  rw [runMain, if_neg h]

theorem runMain_ok_elim {l : List Obs} {o : Outputs} (h : runMain l = Except.ok o) :
    l ≠ [] ∧ o.table = build_hri l ∧ o.triggerList = triggeredRows (build_hri l) ∧
      ((o.triggerList = [] ∧ o.finalEvent = noTriggerEvent) ∨
        (∃ r rest, o.triggerList = r :: rest ∧ o.finalEvent = build_final_event r)) := by
  by_cases hl : l = []
  · subst hl
    rw [runMain, if_pos rfl] at h
    exact absurd h (by simp)
  · rw [runMain_eq_of_ne_nil hl] at h
    have ho := (Except.ok.injEq _ _).mp h.symm
    subst ho
    refine ⟨hl, rfl, rfl, ?_⟩
    cases htr : triggeredRows (build_hri l) with
    | nil => exact Or.inl ⟨rfl, rfl⟩
    | cons r rest => exact Or.inr ⟨r, rest, rfl, rfl⟩

theorem vstep_none_left : ∀ c : Option ℚ, vstep none c = 0 := by
  intro c; cases c <;> rfl

theorem qualifies_iff (t : Option ℚ) :
    qualifies t = true ↔ ∃ x, t = some x ∧ T_BASE ≤ x := by
  cases t <;> simp [qualifies]

theorem hriRows_get_mk : ∀ (l : List Obs) (s : ℕ) (p : Option ℚ) (i : ℕ)
    (hi : i < (hriRows l s p).length) (hl : i < l.length),
    ∃ s2 p2, (hriRows l s p).get ⟨i, hi⟩ = mkRow (l.get ⟨i, hl⟩) s2 p2 := by
  intro l
  induction l with
  | nil => intro s p i hi hl; exact absurd hl (by simp)
  | cons o rest ih =>
      intro s p i hi hl
      match i with
      | 0 => exact ⟨s, p, rfl⟩
      | k + 1 =>
          have hi2 : k < (hriRows rest (if qualifies o.T_t then s + 1 else 0) o.T_t).length := by
            have := hi; simp [hriRows] at this; omega
          have hl2 : k < rest.length := by
            have := hl; simp at this; omega
          exact ih (if qualifies o.T_t then s + 1 else 0) o.T_t k hi2 hl2

theorem hriRows_get_T_t (l : List Obs) (s : ℕ) (p : Option ℚ) (i : ℕ)
    (hi : i < (hriRows l s p).length) (hl : i < l.length) :
    ((hriRows l s p).get ⟨i, hi⟩).T_t = (l.get ⟨i, hl⟩).T_t := by
  obtain ⟨s2, p2, h⟩ := hriRows_get_mk l s p i hi hl
  rw [h, mkRow_T_t]

theorem hriRows_get_date (l : List Obs) (s : ℕ) (p : Option ℚ) (i : ℕ)
    (hi : i < (hriRows l s p).length) (hl : i < l.length) :
    ((hriRows l s p).get ⟨i, hi⟩).date = (l.get ⟨i, hl⟩).date := by
  obtain ⟨s2, p2, h⟩ := hriRows_get_mk l s p i hi hl
  rw [h, mkRow_date]

/-! ### Claim theorems -/

/-- C1: for a date-ascending observation series under the default
configuration, `build_hri` produces one row per observation carrying the
input `T_t`, with `D_con` the streak recurrence (`+1` on a finite day at or
above `T_BASE`, else reset to 0, starting from 0 before the series),
`V_var` the absolute difference of consecutive finite temperatures (0 on
the first day or when either value is non-finite), `HRI` the formula
`ALPHA*max(0, T_t - T_BASE) + BETA*ln(D_con+1) + GAMMA*V_var`, and
`trigger` the comparison `HRI >= HRI_THRESHOLD`. -/
theorem C1_engine_formulas (obs : List Obs) (hsorted : obs.Sorted dateLe) :
    (build_hri obs).length = obs.length ∧
    (∀ t : Option ℚ, qualifies t = true ↔ ∃ x, t = some x ∧ T_BASE ≤ x) ∧
    (∀ p c : Option ℚ, vstep p c =
      match p, c with
      | some a, some b => |b - a|
      | _, _ => 0) ∧
    (∀ i (hi : i < (build_hri obs).length) (hl : i < obs.length),
      ((build_hri obs).get ⟨i, hi⟩).T_t = (obs.get ⟨i, hl⟩).T_t ∧
      ((build_hri obs).get ⟨i, hi⟩).date = (obs.get ⟨i, hl⟩).date) ∧
    (∀ h0 : 0 < (build_hri obs).length,
      ((build_hri obs).get ⟨0, h0⟩).D_con =
        (if qualifies ((build_hri obs).get ⟨0, h0⟩).T_t then 0 + 1 else 0) ∧
      ((build_hri obs).get ⟨0, h0⟩).V_var = 0) ∧
    (∀ i (hi : i < (build_hri obs).length) (hj : i + 1 < (build_hri obs).length),
      ((build_hri obs).get ⟨i + 1, hj⟩).D_con =
        (if qualifies ((build_hri obs).get ⟨i + 1, hj⟩).T_t
          then ((build_hri obs).get ⟨i, hi⟩).D_con + 1 else 0) ∧
      ((build_hri obs).get ⟨i + 1, hj⟩).V_var =
        vstep ((build_hri obs).get ⟨i, hi⟩).T_t ((build_hri obs).get ⟨i + 1, hj⟩).T_t) ∧
    (∀ i (hi : i < (build_hri obs).length) (x : ℚ),
      ((build_hri obs).get ⟨i, hi⟩).T_t = some x →
      ((build_hri obs).get ⟨i, hi⟩).HRI =
        some (ALPHA * max 0 ((x : ℝ) - (T_BASE : ℝ))
          + BETA * Real.log ((((build_hri obs).get ⟨i, hi⟩).D_con : ℝ) + 1)
          + GAMMA * (((build_hri obs).get ⟨i, hi⟩).V_var : ℝ))) ∧
    (∀ i (hi : i < (build_hri obs).length),
      (((build_hri obs).get ⟨i, hi⟩).T_t = none →
        ((build_hri obs).get ⟨i, hi⟩).HRI = none) ∧
      (∀ h : ℝ, ((build_hri obs).get ⟨i, hi⟩).HRI = some h →
        (trigger ((build_hri obs).get ⟨i, hi⟩) ↔ HRI_THRESHOLD ≤ h))) := by
  have hsort : sortObs obs = obs := sortObs_of_sorted hsorted
  rw [build_hri, hsort]
  refine ⟨hriRows_length obs 0 none, qualifies_iff, ?_, ?_, ?_, ?_, ?_, ?_⟩
  · intro p c; cases p <;> cases c <;> rfl
  · intro i hi hl
    exact ⟨hriRows_get_T_t obs 0 none i hi hl, hriRows_get_date obs 0 none i hi hl⟩
  · intro h0
    match obs, h0 with
    | o :: rest, h0 =>
        refine ⟨rfl, ?_⟩
        rw [hriRows_get_zero, mkRow_V_var, vstep_none_left]
  · intro i hi hj
    have hl : i + 1 < obs.length := by rw [← hriRows_length obs 0 none]; exact hj
    have hstep := hriRows_get_succ obs 0 none i hj hi hl
    constructor
    · rw [hstep, mkRow_D_con, mkRow_T_t]
    · rw [hstep, mkRow_V_var, mkRow_T_t]
  · intro i hi x hx
    have hm := List.get_mem (hriRows obs 0 none) _ hi
    have hh := hriRows_row_HRI hm
    rw [hh, hx, hriOf]
  · intro i hi
    constructor
    · intro hx
      have hm := List.get_mem (hriRows obs 0 none) _ hi
      have hh := hriRows_row_HRI hm
      rw [hh, hx, hriOf]
    · intro h hHRI
      rw [trigger, hHRI]

/-- A two-day sorted demo series: a cool day then a warm day. -/
def demoObsA : List Obs := [⟨0, some 27⟩, ⟨1, some 29⟩]

/-- A three-day demo series with a missing (non-finite) middle day. -/
def demoObsB : List Obs := [⟨0, some 29⟩, ⟨1, none⟩, ⟨2, some 30⟩]

/-- Witness for C1 at the concrete series `demoObsA`. -/
theorem C1_engine_formulas_witness :
    (build_hri demoObsA).length = demoObsA.length ∧
    (qualifies (some 29) = true ↔ ∃ x, (some (29 : ℚ)) = some x ∧ T_BASE ≤ x) :=
  ⟨(C1_engine_formulas demoObsA (by decide)).1,
    (C1_engine_formulas demoObsA (by decide)).2.1 (some 29)⟩

/-- C2: the level classifier evaluates the decision table in order with
first match winning under the default thresholds (`T_BASE = 28`,
`SEVERE_TEMP = 30`, warning duration 3 days), and the severe temperature
boundary is inclusive: `(29.5, 3)` maps to WARNING and `(30.0, 3)` to
SEVERE. -/
theorem C2_level_decision_table (T : Option ℚ) (D : ℕ) :
    (T = none → risk_level_from_T_D T D = Level.UNKNOWN) ∧
    (∀ x : ℚ, T = some x →
      (x < T_BASE → risk_level_from_T_D T D = Level.NORMAL) ∧
      (T_BASE ≤ x → D < 3 → risk_level_from_T_D T D = Level.WATCH) ∧
      (T_BASE ≤ x → 3 ≤ D → x < SEVERE_TEMP → risk_level_from_T_D T D = Level.WARNING) ∧
      (T_BASE ≤ x → 3 ≤ D → SEVERE_TEMP ≤ x → risk_level_from_T_D T D = Level.SEVERE)) ∧
    risk_level_from_T_D (some 29.5) 3 = Level.WARNING ∧
    risk_level_from_T_D (some 30) 3 = Level.SEVERE := by
  refine ⟨?_, ?_, ?_, ?_⟩
  · intro h; rw [h, risk_level_from_T_D]
  · intro x hx
    subst hx
    refine ⟨?_, ?_, ?_, ?_⟩
    · intro h; simp [risk_level_from_T_D, h]
    · intro h1 h2; simp [risk_level_from_T_D, not_lt.mpr h1, h2]
    · intro h1 h2 h3
      simp [risk_level_from_T_D, not_lt.mpr h1, Nat.not_lt.mpr h2, h3]
    · intro h1 h2 h3
      simp [risk_level_from_T_D, not_lt.mpr h1, Nat.not_lt.mpr h2, not_lt.mpr h3]
  · norm_num [risk_level_from_T_D, T_BASE, SEVERE_TEMP]
  · norm_num [risk_level_from_T_D, T_BASE, SEVERE_TEMP]

/-- Witness for C2: a hot long-streak day classifies as SEVERE. -/
theorem C2_level_decision_table_witness :
    risk_level_from_T_D (some 32) 5 = Level.SEVERE := by
  have h := (C2_level_decision_table (some 32) 5).2.1 32 rfl
  exact h.2.2.2 (by norm_num [T_BASE]) (by norm_num) (by norm_num [SEVERE_TEMP])

/-- C3: a day with non-finite `T_t` does not abort the pass: the series
keeps its length, the run still produces outputs, and the missing day gets
level UNKNOWN, a streak reset to 0, a non-finite HRI and no trigger, while
a qualifying next day restarts the streak at 1. -/
theorem C3_missing_day_graceful (obs : List Obs) :
    (build_hri obs).length = obs.length ∧
    (obs ≠ [] → ∃ o, runMain obs = Except.ok o) ∧
    ∀ i (hi : i < (build_hri obs).length),
      ((build_hri obs).get ⟨i, hi⟩).T_t = none →
        ((build_hri obs).get ⟨i, hi⟩).level = Level.UNKNOWN ∧
        ((build_hri obs).get ⟨i, hi⟩).D_con = 0 ∧
        ((build_hri obs).get ⟨i, hi⟩).HRI = none ∧
        ¬ trigger ((build_hri obs).get ⟨i, hi⟩) ∧
        (∀ hj : i + 1 < (build_hri obs).length,
          qualifies (((build_hri obs).get ⟨i + 1, hj⟩).T_t) = true →
          ((build_hri obs).get ⟨i + 1, hj⟩).D_con = 1) := by
  refine ⟨build_hri_length obs, fun h => ⟨_, runMain_eq_of_ne_nil h⟩, ?_⟩
  rw [build_hri]
  intro i hi hx
  have hl0 : i < (sortObs obs).length := by
    rw [← hriRows_length (sortObs obs) 0 none]; exact hi
  obtain ⟨s2, p2, hmk⟩ := hriRows_get_mk (sortObs obs) 0 none i hi hl0
  have hoT : ((sortObs obs).get ⟨i, hl0⟩).T_t = none := by
    rw [hmk, mkRow_T_t] at hx; exact hx
  have hD : ((hriRows (sortObs obs) 0 none).get ⟨i, hi⟩).D_con = 0 := by
    rw [hmk, mkRow_D_con, hoT]
    rfl
  have hHRI : ((hriRows (sortObs obs) 0 none).get ⟨i, hi⟩).HRI = none := by
    have hm := List.get_mem (hriRows (sortObs obs) 0 none) _ hi
    rw [hriRows_row_HRI hm, hx, hriOf]
  refine ⟨?_, hD, hHRI, not_trigger_of_HRI_none hHRI, ?_⟩
  · have hm := List.get_mem (hriRows (sortObs obs) 0 none) _ hi
    rw [hriRows_row_level hm, hx, risk_level_from_T_D]
  · intro hj hq
    have hl : i + 1 < (sortObs obs).length := by
      rw [← hriRows_length (sortObs obs) 0 none]; exact hj
    have hstep := hriRows_get_succ (sortObs obs) 0 none i hj hi hl
    rw [hstep, mkRow_T_t] at hq
    rw [hstep, mkRow_D_con, if_pos hq, hD]

/-- Witness for C3 at `demoObsB`: the missing middle day is UNKNOWN with a
reset streak, and the following qualifying day restarts at 1. -/
theorem C3_missing_day_graceful_witness :
    ((build_hri demoObsB).get ⟨1, by decide⟩).level = Level.UNKNOWN ∧
    ((build_hri demoObsB).get ⟨1, by decide⟩).D_con = 0 ∧
    ((build_hri demoObsB).get ⟨2, by decide⟩).D_con = 1 := by
  have h := (C3_missing_day_graceful demoObsB).2.2 1 (by decide) rfl
  exact ⟨h.1, h.2.1, h.2.2.2.2 (by decide) (by norm_num [build_hri, sortObs, dateLe,
    demoObsB, hriRows, mkRow, qualifies, T_BASE])⟩

/-- C4: within a run of consecutive qualifying days (finite `T_t` at or
above `T_BASE`) the streak increases by exactly 1 each day, hence is
non-decreasing, and on the day such a run breaks (missing or cool `T_t`)
the streak is exactly 0; a non-qualifying first day also has streak 0. -/
theorem C4_streak_recurrence (obs : List Obs) :
    (∀ h0 : 0 < (build_hri obs).length,
      qualifies (((build_hri obs).get ⟨0, h0⟩).T_t) = false →
      ((build_hri obs).get ⟨0, h0⟩).D_con = 0) ∧
    ∀ i (hi : i < (build_hri obs).length) (hj : i + 1 < (build_hri obs).length),
      (qualifies (((build_hri obs).get ⟨i + 1, hj⟩).T_t) = true →
        ((build_hri obs).get ⟨i + 1, hj⟩).D_con = ((build_hri obs).get ⟨i, hi⟩).D_con + 1 ∧
        ((build_hri obs).get ⟨i, hi⟩).D_con ≤ ((build_hri obs).get ⟨i + 1, hj⟩).D_con) ∧
      (qualifies (((build_hri obs).get ⟨i + 1, hj⟩).T_t) = false →
        ((build_hri obs).get ⟨i + 1, hj⟩).D_con = 0) := by
  rw [build_hri]
  constructor
  · intro h0 hq
    revert hq h0
    cases hs : sortObs obs with
    | nil => intro h0 hq; simp [hriRows] at h0
    | cons o rest =>
        intro h0 hq
        rw [hriRows_get_zero] at hq ⊢
        rw [mkRow_T_t] at hq
        rw [mkRow_D_con, if_neg (by rw [hq]; exact Bool.false_ne_true)]
  · intro i hi hj
    have hl : i + 1 < (sortObs obs).length := by
      rw [← hriRows_length (sortObs obs) 0 none]; exact hj
    have hstep := hriRows_get_succ (sortObs obs) 0 none i hj hi hl
    constructor
    · intro hq
      rw [hstep, mkRow_T_t] at hq
      rw [hstep, mkRow_D_con, if_pos hq]
      exact ⟨rfl, Nat.le_succ _⟩
    · intro hq
      rw [hstep, mkRow_T_t] at hq
      rw [hstep, mkRow_D_con, if_neg (by rw [hq]; exact Bool.false_ne_true)]

/-- Witness for C4 at `demoObsB`: day 1 breaks the run (streak 0), day 2
restarts it (streak = streak of day 1 plus one). -/
theorem C4_streak_recurrence_witness :
    ((build_hri demoObsB).get ⟨1, by decide⟩).D_con = 0 ∧
    ((build_hri demoObsB).get ⟨2, by decide⟩).D_con =
      ((build_hri demoObsB).get ⟨1, by decide⟩).D_con + 1 := by
  have h := (C4_streak_recurrence demoObsB).2
  constructor
  · exact (h 0 (by decide) (by decide)).2 (by norm_num [build_hri, sortObs, dateLe,
      demoObsB, hriRows, mkRow, qualifies, T_BASE])
  · exact ((h 1 (by decide) (by decide)).1 (by norm_num [build_hri, sortObs, dateLe,
      demoObsB, hriRows, mkRow, qualifies, T_BASE])).1

/-- C8: on an empty observation series the run fails with the fatal
`RuntimeError` before computing metrics, and no output artifact (table,
trigger list, final event) is produced. -/
theorem C8_empty_series_fatal :
    runMain ([] : List Obs) =
      Except.error "No processed days. Check network/URL/permissions." ∧
    ∀ o : Outputs, runMain ([] : List Obs) ≠ Except.ok o := by
  constructor
  · rw [runMain, if_pos rfl]
  · intro o h
    rw [runMain, if_pos rfl] at h
    exact Except.noConfusion h

/-- C9: on any day whose `T_t` is finite the HRI is a finite value and is
non-negative: the clamped excess term, the log term (argument at least 1)
and the volatility term are each non-negative under the default
non-negative weights. -/
theorem C9_hri_nonneg (obs : List Obs) (i : ℕ) (hi : i < (build_hri obs).length)
    (x : ℚ) (hx : ((build_hri obs).get ⟨i, hi⟩).T_t = some x) :
    0 ≤ max 0 ((x : ℝ) - (T_BASE : ℝ)) ∧
    0 ≤ Real.log ((((build_hri obs).get ⟨i, hi⟩).D_con : ℝ) + 1) ∧
    0 ≤ (((build_hri obs).get ⟨i, hi⟩).V_var : ℝ) ∧
    ∃ h : ℝ, ((build_hri obs).get ⟨i, hi⟩).HRI = some h ∧ 0 ≤ h := by
  have hm := List.get_mem (build_hri obs) _ hi
  have hv : ((0 : ℚ)) ≤ ((build_hri obs).get ⟨i, hi⟩).V_var :=
    hriRows_row_Vvar_nonneg (l := sortObs obs) (s := 0) (p := none) hm
  have hv2 : (0 : ℝ) ≤ (((build_hri obs).get ⟨i, hi⟩).V_var : ℝ) := by exact_mod_cast hv
  have hlog : 0 ≤ Real.log ((((build_hri obs).get ⟨i, hi⟩).D_con : ℝ) + 1) := by
    apply Real.log_nonneg
    have : (0 : ℝ) ≤ ((((build_hri obs).get ⟨i, hi⟩).D_con : ℕ) : ℝ) := Nat.cast_nonneg _
    linarith
  have hh := hriRows_row_HRI (l := sortObs obs) (s := 0) (p := none) hm
  refine ⟨le_max_left 0 _, hlog, hv2, ?_⟩
  refine ⟨_, by rw [hh, hx, hriOf], ?_⟩
  have h1 : (0 : ℝ) ≤ ALPHA * max 0 ((x : ℝ) - (T_BASE : ℝ)) :=
    mul_nonneg (by norm_num [ALPHA]) (le_max_left 0 _)
  have h2 : (0 : ℝ) ≤ BETA * Real.log ((((build_hri obs).get ⟨i, hi⟩).D_con : ℝ) + 1) :=
    mul_nonneg (by norm_num [BETA]) hlog
  have h3 : (0 : ℝ) ≤ GAMMA * (((build_hri obs).get ⟨i, hi⟩).V_var : ℝ) :=
    mul_nonneg (by norm_num [GAMMA]) hv2
  linarith

/-- Witness for C9 at `demoObsA`, day 0 (a finite cool day). -/
theorem C9_hri_nonneg_witness :
    ∃ h : ℝ, ((build_hri demoObsA).get ⟨0, by decide⟩).HRI = some h ∧ 0 ≤ h :=
  (C9_hri_nonneg demoObsA 0 (by decide) 27 rfl).2.2.2

/-- A one-day triggering demo series (hot day, large excess). -/
def demoObsC : List Obs := [⟨0, some 32⟩]

/-- The single metric row `build_hri` produces for `demoObsC`. -/
noncomputable def demoRowC : DailyMetric := mkRow ⟨0, some 32⟩ 0 none

/-- A one-day non-triggering demo series (cool day). -/
def demoObsD : List Obs := [⟨0, some 27⟩]

/-- The single metric row `build_hri` produces for `demoObsD`. -/
noncomputable def demoRowD : DailyMetric := mkRow ⟨0, some 27⟩ 0 none

theorem build_hri_demoObsC : build_hri demoObsC = [demoRowC] := rfl

theorem build_hri_demoObsD : build_hri demoObsD = [demoRowD] := rfl

theorem demoRowC_HRI : demoRowC.HRI = some (4 + 0.8 * Real.log 2) := by
  rw [demoRowC, mkRow]
  norm_num [hriOf, vstep, qualifies, T_BASE, ALPHA, BETA, GAMMA]

theorem demoRowC_trigger : trigger demoRowC := by
  rw [trigger_iff]
  refine ⟨_, demoRowC_HRI, ?_⟩
  have hlog : (0 : ℝ) ≤ Real.log 2 := Real.log_nonneg (by norm_num)
  rw [HRI_THRESHOLD]
  nlinarith

theorem demoRowD_HRI : demoRowD.HRI = some 0 := by
  rw [demoRowD, mkRow]
  norm_num [hriOf, vstep, qualifies, T_BASE, ALPHA, BETA, GAMMA, Real.log_one]

theorem demoRowD_not_trigger : ¬ trigger demoRowD := by
  rw [trigger_iff]
  rintro ⟨h, hh, hle⟩
  rw [demoRowD_HRI] at hh
  have : h = 0 := by injection hh.symm
  rw [this, HRI_THRESHOLD] at hle
  norm_num at hle

theorem triggeredRows_demoC : triggeredRows (build_hri demoObsC) = [demoRowC] := by
  rw [build_hri_demoObsC, triggeredRows]
  simp [List.filter, @decide_eq_true (trigger demoRowC) (Classical.propDecidable _)
    demoRowC_trigger]

theorem triggeredRows_demoD : triggeredRows (build_hri demoObsD) = [] := by
  rw [build_hri_demoObsD, triggeredRows]
  simp [List.filter, @decide_eq_false (trigger demoRowD) (Classical.propDecidable _)
    demoRowD_not_trigger]

theorem runMain_demoObsC :
    runMain demoObsC = Except.ok ⟨[demoRowC], [demoRowC], build_final_event demoRowC⟩ := by
  rw [runMain_eq_of_ne_nil (by decide), triggeredRows_demoC, build_hri_demoObsC]

theorem runMain_demoObsD :
    runMain demoObsD = Except.ok ⟨[demoRowD], [], noTriggerEvent⟩ := by
  rw [runMain_eq_of_ne_nil (by decide), triggeredRows_demoD, build_hri_demoObsD]

theorem build_hri_dates_nodup {obs : List Obs} (hnd : (obs.map Obs.date).Nodup) :
    ((build_hri obs).map DailyMetric.date).Nodup := by
  rw [build_hri_map_date]
  exact (((sortObs_perm obs).map Obs.date).nodup_iff).mpr hnd

/-- C5: the three outputs of a run are internally consistent: every record
of the trigger-list export is a table row with its trigger flag set, and a
final event with `triggered = true` snapshots exactly the metrics of the
(unique) tabular row for its date. -/
theorem C5_outputs_consistent (obs : List Obs) (o : Outputs)
    (hok : runMain obs = Except.ok o) (hnd : (obs.map Obs.date).Nodup) :
    (∀ m ∈ o.triggerList, m ∈ o.table ∧ trigger m) ∧
    (o.finalEvent.decision.triggered = true →
      ∃ m, m ∈ o.table ∧ trigger m ∧
        o.finalEvent.date = some m.date ∧
        o.finalEvent.metrics = some ⟨m.T_t, m.D_con, m.V_var, m.HRI⟩ ∧
        ∀ m2 ∈ o.table, m2.date = m.date → m2 = m) := by
  obtain ⟨hne, htab, htrig, hcase⟩ := runMain_ok_elim hok
  have hpart1 : ∀ m ∈ o.triggerList, m ∈ o.table ∧ trigger m := by
    intro m hm
    rw [htrig] at hm
    obtain ⟨hmem, ht⟩ := mem_triggeredRows.mp hm
    exact ⟨htab ▸ hmem, ht⟩
  refine ⟨hpart1, ?_⟩
  intro htriggered
  rcases hcase with ⟨hnil, hev⟩ | ⟨r, rest, hlist, hev⟩
  · rw [hev] at htriggered
    exact absurd htriggered (by rw [noTriggerEvent]; exact Bool.false_ne_true)
  · have hrmem : r ∈ o.triggerList := by rw [hlist]; exact List.mem_cons_self r rest
    obtain ⟨hrt, htr⟩ := hpart1 r hrmem
    refine ⟨r, hrt, htr, by rw [hev, build_final_event], by rw [hev, build_final_event], ?_⟩
    intro m2 hm2 hdate
    have hnd2 : ((build_hri obs).map DailyMetric.date).Nodup := build_hri_dates_nodup hnd
    have hrt2 : r ∈ build_hri obs := htab ▸ hrt
    have hm2b : m2 ∈ build_hri obs := htab ▸ hm2
    exact List.inj_on_of_nodup_map hnd2 hm2b hrt2 hdate

/-- Witness for C5 at the triggering series `demoObsC`. -/
theorem C5_outputs_consistent_witness :
    ∃ o : Outputs, runMain demoObsC = Except.ok o ∧ ∀ m ∈ o.triggerList, m ∈ o.table ∧ trigger m :=
  ⟨_, runMain_demoObsC,
    (C5_outputs_consistent demoObsC _ runMain_demoObsC (by decide)).1⟩

/-- C6: whenever at least one day triggers, the exported final event is
built from the first (earliest-dated) triggering row: the head of the
trigger list, a table row whose date is at most the date of every other
triggering table row. -/
theorem C6_first_trigger_event (obs : List Obs) (o : Outputs)
    (hok : runMain obs = Except.ok o) (hne : o.triggerList ≠ []) :
    ∃ m rest, o.triggerList = m :: rest ∧
      o.finalEvent = build_final_event m ∧
      m ∈ o.table ∧ trigger m ∧
      ∀ m2 ∈ o.table, trigger m2 → m.date ≤ m2.date := by
  obtain ⟨hne2, htab, htrig, hcase⟩ := runMain_ok_elim hok
  rcases hcase with ⟨hnil, _⟩ | ⟨r, rest, hlist, hev⟩
  · exact absurd hnil hne
  · have hrmem : r ∈ triggeredRows (build_hri obs) := by
      rw [← htrig, hlist]; exact List.mem_cons_self r rest
    obtain ⟨hrt, htr⟩ := mem_triggeredRows.mp hrmem
    refine ⟨r, rest, hlist, hev, htab ▸ hrt, htr, ?_⟩
    intro m2 hm2 ht2
    have hm2f : m2 ∈ triggeredRows (build_hri obs) :=
      mem_triggeredRows.mpr ⟨htab ▸ hm2, ht2⟩
    have hpair : (triggeredRows (build_hri obs)).Pairwise (fun a b => a.date ≤ b.date) :=
      (build_hri_pairwise_dateLe obs).sublist (triggeredRows_sublist _)
    rw [← htrig, hlist] at hm2f hpair
    rcases List.mem_cons.mp hm2f with rfl | hm2r
    · exact le_refl _
    · exact (List.pairwise_cons.mp hpair).1 m2 hm2r

/-- Witness for C6 at `demoObsC`: its single hot day is the final event. -/
theorem C6_first_trigger_event_witness :
    ∃ m rest,
      (⟨[demoRowC], [demoRowC], build_final_event demoRowC⟩ : Outputs).triggerList
        = m :: rest ∧
      (⟨[demoRowC], [demoRowC], build_final_event demoRowC⟩ : Outputs).finalEvent
        = build_final_event m := by
  have h := C6_first_trigger_event demoObsC _ runMain_demoObsC (by simp)
  obtain ⟨m, rest, h1, h2, _⟩ := h
  exact ⟨m, rest, h1, h2⟩

/-- C7 counterexample: the no-trigger payload does NOT carry the same keys
as a triggering payload — `main`'s no-trigger branch omits the `metrics`
(and `threshold`, `weights`, `source`) keys entirely, as the two concrete
runs below show. -/
theorem C7_counterexample_keys_differ :
    runMain demoObsD = Except.ok ⟨[demoRowD], [], noTriggerEvent⟩ ∧
    noTriggerEvent.decision.triggered = false ∧
    "metrics" ∉ noTriggerEvent.keys ∧
    runMain demoObsC = Except.ok ⟨[demoRowC], [demoRowC], build_final_event demoRowC⟩ ∧
    (build_final_event demoRowC).decision.triggered = true ∧
    "metrics" ∈ (build_final_event demoRowC).keys ∧
    noTriggerEvent.keys ≠ (build_final_event demoRowC).keys :=
  ⟨runMain_demoObsD, rfl, by decide, runMain_demoObsC, rfl, by decide, by decide⟩

/-- C7 amended: when no day triggers, the final payload has decision
`{triggered: false, level: NORMAL}`, a null date and a non-empty
explanatory message, and is distinguishable from any triggering payload by
the `triggered` flag alone; however it does NOT carry the same keys — it
omits `metrics`, `threshold`, `weights` and `source`. -/
theorem C7_no_trigger_payload (obs : List Obs) (o : Outputs)
    (hok : runMain obs = Except.ok o) (hempty : o.triggerList = []) :
    o.finalEvent = noTriggerEvent ∧
    o.finalEvent.decision.triggered = false ∧
    o.finalEvent.decision.level = Level.NORMAL ∧
    o.finalEvent.date = none ∧
    o.finalEvent.message ≠ "" ∧
    o.finalEvent.keys = ["event_type", "region", "date", "decision", "message"] ∧
    (∀ m : DailyMetric, (build_final_event m).decision.triggered = true) ∧
    (∀ m : DailyMetric, o.finalEvent.keys ≠ (build_final_event m).keys) := by
  obtain ⟨hne, htab, htrig, hcase⟩ := runMain_ok_elim hok
  rcases hcase with ⟨hnil, hev⟩ | ⟨r, rest, hlist, hev⟩
  · rw [hev]
    refine ⟨rfl, rfl, rfl, rfl, by decide, by decide, fun m => rfl, ?_⟩
    intro m
    have hkeys : (build_final_event m).keys =
        ["event_type", "region", "date", "metrics", "threshold", "weights",
          "source", "decision", "message"] := rfl
    rw [hkeys]
    decide
  · rw [hempty] at hlist
    exact absurd hlist.symm (List.cons_ne_nil r rest)

/-- Witness for C7 at the non-triggering series `demoObsD`. -/
theorem C7_no_trigger_payload_witness :
    noTriggerEvent.decision.triggered = false ∧ noTriggerEvent.date = none := by
  have h := C7_no_trigger_payload demoObsD ⟨[demoRowD], [], noTriggerEvent⟩
    runMain_demoObsD rfl
  exact ⟨h.2.1, h.2.2.2.1⟩

/-- Two observations sharing a date, in the two possible input orders. -/
def dupA : List Obs := [⟨0, some 29⟩, ⟨0, some 28⟩]

/-- The swapped permutation of `dupA`. -/
def dupB : List Obs := [⟨0, some 28⟩, ⟨0, some 29⟩]

/-- C10 counterexample: permutation invariance fails on duplicate dates —
`dupA` and `dupB` are permutations of each other, yet `build_hri` keeps the
(stable-sort) input order of the equal-dated rows, so the two results
differ already in their `T_t` columns. -/
theorem C10_counterexample_duplicate_dates :
    dupA.Perm dupB ∧
    (build_hri dupA).map DailyMetric.T_t = [some 29, some 28] ∧
    (build_hri dupB).map DailyMetric.T_t = [some 28, some 29] ∧
    build_hri dupA ≠ build_hri dupB := by
  refine ⟨List.Perm.swap _ _ _, rfl, rfl, ?_⟩
  intro h
  have h2 := congrArg (List.map DailyMetric.T_t) h
  have h3 : ([some 29, some 28] : List (Option ℚ)) = [some 28, some 29] := h2
  exact absurd h3 (by decide)

/-- C10 amended: `build_hri` sorts defensively and never rejects unsorted
input: its output equals `build_hri` of the date-sorted series, the output
dates are always ascending, any non-empty series yields outputs (no
`OrderingError` exists), and permutation invariance holds whenever the
dates are pairwise distinct (with duplicate dates the result depends on the
input order of the equal-dated rows, as the counterexample shows). -/
theorem C10_defensive_sort (obs1 obs2 : List Obs) (hperm : obs1.Perm obs2)
    (hnd : (obs1.map Obs.date).Nodup) :
    build_hri obs1 = build_hri obs2 ∧
    build_hri obs1 = build_hri (sortObs obs1) ∧
    ((build_hri obs1).map DailyMetric.date).Sorted (· ≤ ·) ∧
    (obs1 ≠ [] → ∃ o, runMain obs1 = Except.ok o) := by
  have hsorteq : sortObs obs1 = sortObs obs2 := by
    have hp : (sortObs obs1).Perm (sortObs obs2) :=
      (sortObs_perm obs1).trans (hperm.trans (sortObs_perm obs2).symm)
    have hs1 : (sortObs obs1).Pairwise dateLe := sortObs_sorted obs1
    have hs2 : (sortObs obs2).Pairwise dateLe := sortObs_sorted obs2
    have hnd1 : ((sortObs obs1).map Obs.date).Nodup :=
      (((sortObs_perm obs1).map Obs.date).nodup_iff).mpr hnd
    have hnd2 : ((sortObs obs2).map Obs.date).Nodup := by
      refine (((sortObs_perm obs2).map Obs.date).nodup_iff).mpr ?_
      exact ((hperm.map Obs.date).nodup_iff).mp hnd
    have hne1 : (sortObs obs1).Pairwise (fun a b => a.date ≠ b.date) := by
      rw [List.Nodup, List.pairwise_map] at hnd1
      exact hnd1
    have hne2 : (sortObs obs2).Pairwise (fun a b => a.date ≠ b.date) := by
      rw [List.Nodup, List.pairwise_map] at hnd2
      exact hnd2
    have hlt1 : (sortObs obs1).Pairwise (fun a b => a.date < b.date) :=
      (hs1.and hne1).imp (fun h => lt_of_le_of_ne h.1 h.2)
    have hlt2 : (sortObs obs2).Pairwise (fun a b => a.date < b.date) :=
      (hs2.and hne2).imp (fun h => lt_of_le_of_ne h.1 h.2)
    haveI : IsAntisymm Obs (fun a b => a.date < b.date) :=
      ⟨fun a b hab hba => absurd hab (Nat.lt_asymm hba)⟩
    exact List.eq_of_perm_of_sorted hp hlt1 hlt2
  refine ⟨by rw [build_hri, build_hri, hsorteq], ?_, build_hri_dates_sorted obs1, ?_⟩
  · rw [build_hri, build_hri, sortObs_of_sorted (sortObs_sorted obs1)]
  · intro h
    exact ⟨_, runMain_eq_of_ne_nil h⟩

/-- The reversed (unsorted) permutation of `demoObsA`. -/
def demoObsArev : List Obs := [⟨1, some 29⟩, ⟨0, some 27⟩]

/-- Witness for C10: `build_hri` gives the same table on `demoObsA` and on
its unsorted permutation. -/
theorem C10_defensive_sort_witness :
    build_hri demoObsA = build_hri demoObsArev :=
  (C10_defensive_sort demoObsA demoObsArev (List.Perm.swap _ _ _) (by decide)).1

end RunHri
